import Mathlib

/-!
Shallow embedding of the Grid2Op_Resilience engine slice
(`src/grid2op/Environment/Environment.py`,
`src/grid2op/Observation/EssentialObservation.py`, `src/grid2op/Reward/*`),
with theorems settling the specification claims about it.

Python floats are modelled by `ℚ`, numpy `dt_int` (`int32`) values by `ℤ`
with explicit two's-complement wrapping, numpy arrays by `List`, and
fallible constructors by `Except`.  Components of the repository that are
not part of the provided sources (the `BaseEnv` step loop, the
`BaseObservation.simulate` sandbox, the chronics and backend classes) are
modelled from the specification; each such definition is marked.
-/

namespace Grid2OpRes

/-- Decidable equality for `Except` values, used to evaluate the model on
concrete inputs. -/
instance {e a : Type} [DecidableEq e] [DecidableEq a] : DecidableEq (Except e a) := fun x y =>
  match x, y with
  | Except.ok v, Except.ok w =>
      if h : v = w then Decidable.isTrue (by rw [h]) else Decidable.isFalse (by simp [h])
  | Except.error v, Except.error w =>
      if h : v = w then Decidable.isTrue (by rw [h]) else Decidable.isFalse (by simp [h])
  | Except.ok _, Except.error _ => Decidable.isFalse (by simp)
  | Except.error _, Except.ok _ => Decidable.isFalse (by simp)

/-! ## Backend and environment construction
(`Environment._init_backend`, src/grid2op/Environment/Environment.py
lines 144-332) -/

/-- The slice of a `Backend` object relevant to construction: its `_is_loaded`
flag (set once an environment has attached it, line 186) and the grid data it
carries (abstracted as its thermal limits). -/
structure BackendM where
  is_loaded : Bool
  thermal_limit : List ℚ
deriving DecidableEq

/-- `Backend.copy()` hands back an independent deep copy: as a value it is
equal to the original. -/
def BackendM.copy (b : BackendM) : BackendM := b

/-- The Python-level facts about the constructor arguments that
`_init_backend` inspects, in the order the code checks them. -/
structure InitArgs where
  rewardClass_is_type : Bool
  rewardClass_derives_BaseReward : Bool
  backend_is_Backend : Bool
  backend : BackendM
  legalActClass_is_type : Bool
  legalActClass_derives_BaseRules : Bool
  actionClass_is_type : Bool
  actionClass_derives_BaseAction : Bool
  observationClass_is_type : Bool
  observationClass_derives_BaseObservation : Bool
  chronics_is_ChronicsHandler : Bool
  voltagecontrolerClass_derives : Bool
  first_step_fails : Bool
deriving DecidableEq

/-- The exceptions `_init_backend` can raise, one constructor per `raise`
site, in source order.  In grid2op `EnvError` (the `backendAlreadyLoaded`
case, line 169) is a subclass of `Grid2OpException`; every other constructor
is a plain `Grid2OpException`. -/
inductive InitError where
  | rewardClassNotAType
  | rewardClassNotBaseReward
  | backendNotBackend
  | backendAlreadyLoaded
  | legalActClassNotAType
  | legalActClassNotBaseRules
  | actionClassNotAType
  | actionClassNotBaseAction
  | observationClassNotAType
  | observationClassNotBaseObservation
  | chronicsNotChronicsHandler
  | voltagecontrolerNotController
  | failToStart
deriving DecidableEq

/-- Scan an ordered list of `(check passed, error if not)` pairs and return
the error of the first failing check, if any. -/
def firstFailure : List (Bool × InitError) → Option InitError
  | [] => none
  | c :: rest => if c.1 then firstFailure rest else some c.2

/-- The ordered guard checks of `_init_backend`: reward class type and base
class (lines 155-161), backend instance (line 164), backend already loaded
(line 168), rules class (lines 208-216), action class (lines 221-229),
observation class (lines 231-239), chronics handler (line 261), voltage
controller class (line 293).  Each pair is `(check passed, exception)`. -/
def checks (a : InitArgs) : List (Bool × InitError) :=
  [ (a.rewardClass_is_type, InitError.rewardClassNotAType),
    (a.rewardClass_derives_BaseReward, InitError.rewardClassNotBaseReward),
    (a.backend_is_Backend, InitError.backendNotBackend),
    (!a.backend.is_loaded, InitError.backendAlreadyLoaded),
    (a.legalActClass_is_type, InitError.legalActClassNotAType),
    (a.legalActClass_derives_BaseRules, InitError.legalActClassNotBaseRules),
    (a.actionClass_is_type, InitError.actionClassNotAType),
    (a.actionClass_derives_BaseAction, InitError.actionClassNotBaseAction),
    (a.observationClass_is_type, InitError.observationClassNotAType),
    (a.observationClass_derives_BaseObservation, InitError.observationClassNotBaseObservation),
    (a.chronics_is_ChronicsHandler, InitError.chronicsNotChronicsHandler),
    (a.voltagecontrolerClass_derives, InitError.voltagecontrolerNotController) ]

/-- `Environment._init_backend` (lines 144-332) as its ordered sequence of
guard checks followed by the single internal do-nothing step of line 312.
An error carries the number of `step` calls executed before the raise;
success returns the number of steps executed during construction (one). -/
def initBackend (a : InitArgs) : Except (InitError × Nat) Nat :=
  match firstFailure (checks a) with
  | some e => Except.error (e, 0)
  | none =>
      if a.first_step_fails then Except.error (InitError.failToStart, 1) else Except.ok 1

/-- True when construction raised with zero `step` calls executed. -/
def errorBeforeStep : Except (InitError × Nat) Nat → Bool
  | Except.error (_, 0) => true
  | _ => false

/-- The malformed-argument conditions listed by the construction-error
taxonomy: reward class, backend instance, rules class, action class,
observation class. -/
def configMalformed (a : InitArgs) : Bool :=
  !a.rewardClass_is_type || !a.rewardClass_derives_BaseReward || !a.backend_is_Backend ||
  !a.legalActClass_is_type || !a.legalActClass_derives_BaseRules ||
  !a.actionClass_is_type || !a.actionClass_derives_BaseAction ||
  !a.observationClass_is_type || !a.observationClass_derives_BaseObservation

theorem firstFailure_some_mem {l : List (Bool × InitError)} {e : InitError}
    (h : firstFailure l = some e) : (false, e) ∈ l := by
  induction l with
  | nil => simp [firstFailure] at h
  | cons c rest ih =>
      rcases c with ⟨ok, err⟩
      cases ok with
      | true =>
          rw [firstFailure] at h
          simp at h
          exact List.mem_cons_of_mem _ (ih h)
      | false =>
          rw [firstFailure] at h
          simp at h
          subst h
          exact List.mem_cons_self _ _

theorem firstFailure_of_fail {l : List (Bool × InitError)} (p : Bool × InitError)
    (hp : p ∈ l) (hfalse : p.1 = false) : ∃ e, firstFailure l = some e := by
  induction l with
  | nil => simp at hp
  | cons c rest ih =>
      rcases List.mem_cons.mp hp with h | h
      · subst h
        exact ⟨p.2, by rw [firstFailure, hfalse]; simp⟩
      · cases hc : c.1 with
        | true =>
            obtain ⟨e, he⟩ := ih h
            exact ⟨e, by rw [firstFailure, hc]; simpa using he⟩
        | false => exact ⟨c.2, by rw [firstFailure, hc]; simp⟩

/-- A backend whose loaded flag is clear can never trigger the
`backendAlreadyLoaded` error, whatever the other arguments are. -/
theorem not_loaded_no_loaded_error (a : InitArgs) (h : a.backend.is_loaded = false) :
    ∀ n, initBackend a ≠ Except.error (InitError.backendAlreadyLoaded, n) := by
  intro n hcontra
  unfold initBackend at hcontra
  cases hff : firstFailure (checks a) with
  | none =>
      rw [hff] at hcontra
      split_ifs at hcontra
      all_goals simp_all
  | some e =>
      rw [hff] at hcontra
      simp only [Except.error.injEq, Prod.mk.injEq] at hcontra
      obtain ⟨he, -⟩ := hcontra
      subst he
      have hmem := firstFailure_some_mem hff
      simp [checks, h] at hmem

/-- Any failing guard check makes construction raise before the internal
initialization step. -/
theorem fail_check_error_before_step (a : InitArgs) (p : Bool × InitError)
    (hp : p ∈ checks a) (hfalse : p.1 = false) :
    errorBeforeStep (initBackend a) = true := by
  obtain ⟨e, hff⟩ := firstFailure_of_fail p hp hfalse
  unfold initBackend
  rw [hff]
  rfl

/-- C4: constructing an `Environment` with an already-loaded backend raises
eagerly, before the internal initialization step; with the earlier reward and
backend-type checks passing, the error is exactly the `EnvError` of line 169;
a fresh (not-loaded) backend never triggers that error. -/
theorem loaded_backend_eager_error :
    (∀ a : InitArgs, a.rewardClass_is_type = true → a.rewardClass_derives_BaseReward = true →
        a.backend_is_Backend = true → a.backend.is_loaded = true →
        initBackend a = Except.error (InitError.backendAlreadyLoaded, 0)) ∧
    (∀ a : InitArgs, a.backend.is_loaded = true →
        errorBeforeStep (initBackend a) = true) ∧
    (∀ a : InitArgs, a.backend.is_loaded = false →
        ∀ n, initBackend a ≠ Except.error (InitError.backendAlreadyLoaded, n)) := by
  refine ⟨?_, ?_, ?_⟩
  · intro a h1 h2 h3 h4
    unfold initBackend
    have hff : firstFailure (checks a) = some InitError.backendAlreadyLoaded := by
      simp [checks, firstFailure, h1, h2, h3, h4]
    rw [hff]
  · intro a h4
    exact fail_check_error_before_step a (!a.backend.is_loaded, InitError.backendAlreadyLoaded)
      (by simp [checks]) (by simp [h4])
  · intro a h
    exact not_loaded_no_loaded_error a h

/-- A loaded backend attached to otherwise well-formed arguments. -/
def argsLoaded : InitArgs :=
  { rewardClass_is_type := true
    rewardClass_derives_BaseReward := true
    backend_is_Backend := true
    backend := { is_loaded := true, thermal_limit := [1] }
    legalActClass_is_type := true
    legalActClass_derives_BaseRules := true
    actionClass_is_type := true
    actionClass_derives_BaseAction := true
    observationClass_is_type := true
    observationClass_derives_BaseObservation := true
    chronics_is_ChronicsHandler := true
    voltagecontrolerClass_derives := true
    first_step_fails := false }

/-- The same arguments with a fresh backend. -/
def argsFresh : InitArgs :=
  { argsLoaded with backend := { is_loaded := false, thermal_limit := [1] } }

/-- Witness for C4 at concrete arguments. -/
theorem loaded_backend_eager_error_witness :
    initBackend argsLoaded = Except.error (InitError.backendAlreadyLoaded, 0) ∧
    errorBeforeStep (initBackend argsLoaded) = true ∧
    initBackend argsFresh ≠ Except.error (InitError.backendAlreadyLoaded, 0) :=
  ⟨loaded_backend_eager_error.1 argsLoaded rfl rfl rfl rfl,
   loaded_backend_eager_error.2.1 argsLoaded rfl,
   loaded_backend_eager_error.2.2 argsFresh rfl 0⟩

/-- C5: any malformed constructor argument among the reward class, backend
instance, rules class, action class and observation class makes construction
raise a `Grid2OpException` with zero steps executed: it never silently
continues, and in particular never reaches the internal initialization
step. -/
theorem malformed_args_raise_before_step :
    ∀ a : InitArgs, configMalformed a = true →
      errorBeforeStep (initBackend a) = true := by
  intro a h
  simp only [configMalformed, Bool.or_eq_true, Bool.not_eq_true'] at h
  rcases h with ((((((((h | h) | h) | h) | h) | h) | h) | h) | h)
  · exact fail_check_error_before_step a (a.rewardClass_is_type, InitError.rewardClassNotAType)
      (by simp [checks]) (by simp [h])
  · exact fail_check_error_before_step a
      (a.rewardClass_derives_BaseReward, InitError.rewardClassNotBaseReward)
      (by simp [checks]) (by simp [h])
  · exact fail_check_error_before_step a (a.backend_is_Backend, InitError.backendNotBackend)
      (by simp [checks]) (by simp [h])
  · exact fail_check_error_before_step a (a.legalActClass_is_type, InitError.legalActClassNotAType)
      (by simp [checks]) (by simp [h])
  · exact fail_check_error_before_step a
      (a.legalActClass_derives_BaseRules, InitError.legalActClassNotBaseRules)
      (by simp [checks]) (by simp [h])
  · exact fail_check_error_before_step a (a.actionClass_is_type, InitError.actionClassNotAType)
      (by simp [checks]) (by simp [h])
  · exact fail_check_error_before_step a
      (a.actionClass_derives_BaseAction, InitError.actionClassNotBaseAction)
      (by simp [checks]) (by simp [h])
  · exact fail_check_error_before_step a
      (a.observationClass_is_type, InitError.observationClassNotAType)
      (by simp [checks]) (by simp [h])
  · exact fail_check_error_before_step a
      (a.observationClass_derives_BaseObservation, InitError.observationClassNotBaseObservation)
      (by simp [checks]) (by simp [h])

/-- Witness for C5: a non-class reward argument errors with zero steps. -/
theorem malformed_args_raise_before_step_witness :
    configMalformed { argsFresh with rewardClass_is_type := false } = true ∧
    errorBeforeStep (initBackend { argsFresh with rewardClass_is_type := false }) = true :=
  ⟨by decide,
   malformed_args_raise_before_step { argsFresh with rewardClass_is_type := false } (by decide)⟩

/-! ## Episode duration (`Environment.max_episode_duration`, lines 334-347) -/

/-- Conversion of an integer to numpy `dt_int` (`int32`): two's-complement
wrap into `[-2^31, 2^31)`. -/
def wrap32 (v : ℤ) : ℤ := (v + 2 ^ 31) % 2 ^ 32 - 2 ^ 31

/-- `np.iinfo(dt_int).max`. -/
def dt_int_max : ℤ := 2 ^ 31 - 1

/-- `Environment.max_episode_duration` (lines 334-347): convert the chronics
handler's value to `dt_int`; if it is negative return the maximum 32-bit
integer. -/
def max_episode_duration (reported : ℤ) : ℤ :=
  let tmp := wrap32 reported
  if tmp < 0 then dt_int_max else tmp

/-- C9: for an `int32`-representable chronics value, `max_episode_duration`
returns the value itself when it is nonnegative and `np.iinfo(dt_int).max`
when it is negative. -/
theorem max_episode_duration_spec :
    (∀ v : ℤ, 0 ≤ v → v < 2 ^ 31 → max_episode_duration v = v) ∧
    (∀ v : ℤ, -2 ^ 31 ≤ v → v < 0 → max_episode_duration v = dt_int_max) := by
  constructor
  · intro v h1 h2
    unfold max_episode_duration wrap32
    have : (v + 2 ^ 31) % 2 ^ 32 = v + 2 ^ 31 := by omega
    simp only [this]
    omega
  · intro v h1 h2
    unfold max_episode_duration wrap32
    have : (v + 2 ^ 31) % 2 ^ 32 = v + 2 ^ 31 := by omega
    simp only [this]
    omega

/-- Witness for C9 at the values 525600 and -1. -/
theorem max_episode_duration_spec_witness :
    max_episode_duration 525600 = 525600 ∧ max_episode_duration (-1) = dt_int_max :=
  ⟨max_episode_duration_spec.1 525600 (by decide) (by decide),
   max_episode_duration_spec.2 (-1) (by decide) (by decide)⟩

/-! ## Reward callables (src/grid2op/Reward/) -/

/-- The slice of an action a reward callable reads: the `set_bus` and
`set_line_status` vectors. -/
structure RecAction where
  set_bus : List ℤ
  set_line_status : List ℤ
deriving DecidableEq

/-- What a reward `__call__` can hand back: a scalar, or (for
`ActionRecorder`) a dict holding the action's `set_bus` and
`set_line_status`. -/
inductive RewardValue where
  | scalar (v : ℚ)
  | record (set_bus : List ℤ) (set_line_status : List ℤ)
deriving DecidableEq

def RewardValue.isScalar : RewardValue → Bool
  | RewardValue.scalar _ => true
  | RewardValue.record _ _ => false

/-- The slice of the environment the reward callables under src/ read:
observation fields, the backend island count, and the scheduled/realized
load data (`env._new_load` and the value of `env._load_difference()`, the
latter computed in `BaseEnv` outside the provided sources and therefore
taken as an input here). -/
structure RewEnv where
  line_status : List Bool
  load_p : List ℚ
  new_load : Option (List ℚ)
  load_diff : List ℚ
  num_islands : ℤ
  time_before_cooldown_line : List ℕ
  n_line : ℕ
deriving DecidableEq

/-- `ActionRecorder.__call__` (src/grid2op/Reward/ActionRecorder.py lines
27-28): returns the dict `{"set_bus": ..., "set_line": ...}`. -/
def actionRecorder_call (action : RecAction) (_env : RewEnv)
    (_has_error _is_done _is_illegal _is_ambiguous : Bool) : RewardValue :=
  RewardValue.record action.set_bus action.set_line_status

/-- `ResilienceReward.__call__` (src/grid2op/Reward/ResilienceReward.py lines
59-144): `reward_illegal = -1`, `reward_min = 0`, `_lambda = eps = 1000`;
`LC` is the fraction of connected lines, `LS` the supplied-over-scheduled
load ratio; `OC` is computed in the source but unused. -/
def resilienceReward_call (env : RewEnv)
    (has_error is_done is_illegal is_ambiguous : Bool) : RewardValue :=
  if has_error && (is_illegal || is_ambiguous) then RewardValue.scalar (-1)
  else if has_error && is_done then RewardValue.scalar 0
  else
    let conn_line : ℕ := (env.line_status.filter (fun b => b)).length
    let lineIntegrity : ℚ := (conn_line : ℚ) / (env.n_line : ℚ)
    let loadSat : ℚ :=
      match env.new_load with
      | none => 0
      | some scheduled => env.load_p.sum / scheduled.sum
    RewardValue.scalar (1000 * loadSat + 1000 * lineIntegrity)

/-- `GridIntegrityMetric.__call__` (src/grid2op/Reward/GridIntegrityMetric.py
lines 51-58): `-1` on an illegal or terminal error, otherwise the backend's
island count. -/
def gridIntegrityMetric_call (env : RewEnv)
    (has_error is_done is_illegal _is_ambiguous : Bool) : RewardValue :=
  if has_error && (is_illegal || is_done) then RewardValue.scalar (-1)
  else RewardValue.scalar (env.num_islands : ℚ)

/-- `ResponseQualityMetric.__call__` (src/grid2op/Reward/ResponseQualityMetric.py
lines 20-38): `-1` on error/illegal/ambiguous, otherwise the number of lines
that are off cooldown yet still disconnected. -/
def responseQualityMetric_call (env : RewEnv)
    (has_error _is_done is_illegal is_ambiguous : Bool) : RewardValue :=
  if has_error || is_illegal || is_ambiguous then RewardValue.scalar (-1)
  else
    let pairs := env.time_before_cooldown_line.zip env.line_status
    RewardValue.scalar (((pairs.filter (fun p => p.1 == 0 && p.2 == false)).length : ℚ))

/-- `UnsuppliedLoadMetric.__call__` (src/grid2op/Reward/UnsuppliedLoadMetric.py
lines 24-31): `0` when illegal or done, otherwise the shed-load fraction. -/
def unsuppliedLoadMetric_call (env : RewEnv)
    (_has_error is_done is_illegal _is_ambiguous : Bool) : RewardValue :=
  if is_illegal || is_done then RewardValue.scalar 0
  else RewardValue.scalar ((env.load_diff.map (fun q => |q|)).sum / env.load_p.sum)

/-- A concrete reward environment used for counterexample evaluation. -/
def rewEnvW : RewEnv :=
  { line_status := [true, false]
    load_p := [10, 5]
    new_load := some [10, 6]
    load_diff := [0, 1]
    num_islands := 1
    time_before_cooldown_line := [0, 0]
    n_line := 2 }

/-- C6 counterexample: `ActionRecorder.__call__` does not return a float
scalar; at a concrete action and flag assignment its result is the recorded
action dict. -/
theorem reward_float_contract_counterexample :
    (actionRecorder_call ⟨[1, 0], [0, -1]⟩ rewEnvW false false false false).isScalar = false :=
  rfl

/-- C6 amended: the reward callables are invoked with
`(action, state, has_error, is_done, is_illegal, is_ambiguous)`;
`ResilienceReward`, `GridIntegrityMetric`, `ResponseQualityMetric` and
`UnsuppliedLoadMetric` return a scalar for every value of the flags, while
`ActionRecorder` always returns the action-recording dict, never a float. -/
theorem reward_scalar_amended :
    ∀ (act : RecAction) (env : RewEnv) (he d il am : Bool),
      (resilienceReward_call env he d il am).isScalar = true ∧
      (gridIntegrityMetric_call env he d il am).isScalar = true ∧
      (responseQualityMetric_call env he d il am).isScalar = true ∧
      (unsuppliedLoadMetric_call env he d il am).isScalar = true ∧
      (actionRecorder_call act env he d il am).isScalar = false := by
  intro act env he d il am
  refine ⟨?_, ?_, ?_, ?_, rfl⟩
  · unfold resilienceReward_call
    split_ifs <;> rfl
  · unfold gridIntegrityMetric_call
    split_ifs <;> rfl
  · unfold responseQualityMetric_call
    split_ifs <;> rfl
  · unfold unsuppliedLoadMetric_call
    split_ifs <;> rfl

/-! ## Observation assembly (`EssentialObservation.update`,
src/grid2op/Observation/EssentialObservation.py lines 143-199) -/

/-- The injection dict placed in `_forecasted_inj`: `load_p`, `load_q`,
`prod_p`, `prod_v`. -/
structure InjDict where
  load_p : List ℚ
  load_q : List ℚ
  prod_p : List ℚ
  prod_v : List ℚ
deriving DecidableEq

/-- The backend interface operations `update` can issue, plus the solver
call `solve` (the backend `runpf`), which `update` never issues. -/
inductive BackendOp where
  | get_line_status
  | get_topo_vect
  | generators_info
  | loads_info
  | lines_or_info
  | lines_ex_info
  | get_relative_flow
  | get_theta
  | solve
deriving DecidableEq

/-- The environment data `EssentialObservation.update` reads: counters and
time stamp, the backend reporting interface values, the chronics forecasts,
and the cooldown bookkeeping. -/
structure UpdEnv where
  nb_time_step : ℕ
  max_episode_dur : ℤ
  time_stamp : ℤ
  timestep_overflow : List ℕ
  b_line_status : List Bool
  b_topo_vect : List ℤ
  b_gen_p : List ℚ
  b_gen_q : List ℚ
  b_gen_v : List ℚ
  b_load_p : List ℚ
  b_load_q : List ℚ
  b_load_v : List ℚ
  b_p_or : List ℚ
  b_q_or : List ℚ
  b_v_or : List ℚ
  b_a_or : List ℚ
  b_p_ex : List ℚ
  b_q_ex : List ℚ
  b_v_ex : List ℚ
  b_a_ex : List ℚ
  b_rho : List ℚ
  forecasts : List (ℤ × InjDict)
  times_before_line_actionable : List ℕ
  times_before_topo_actionable : List ℕ
  thermal_limit : List ℚ
  can_output_theta : Bool
deriving DecidableEq

/-- The observation fields `update` assigns. -/
structure ObsM where
  current_step : ℕ
  max_step : ℤ
  time_stamp : ℤ
  timestep_overflow : List ℕ
  line_status : List Bool
  topo_vect : List ℤ
  gen_p : List ℚ
  gen_q : List ℚ
  gen_v : List ℚ
  load_p : List ℚ
  load_q : List ℚ
  load_v : List ℚ
  p_or : List ℚ
  q_or : List ℚ
  v_or : List ℚ
  a_or : List ℚ
  p_ex : List ℚ
  q_ex : List ℚ
  v_ex : List ℚ
  a_ex : List ℚ
  forecasted_inj : List (ℤ × InjDict)
  forecasted_grid : List (Option Unit)
  rho : List ℚ
  time_before_cooldown_line : List ℕ
  time_before_cooldown_sub : List ℕ
  thermal_limit : List ℚ
deriving DecidableEq

/-- `EssentialObservation.update` (lines 143-199): copy the counters, time
stamp, backend reporting values and cooldowns into a fresh observation;
when `with_forecast` is set, fill `_forecasted_inj` with the current
injection row (built from the load and generator values just read) followed
by the chronics handler's `forecasts()` rows, and `_forecasted_grid` with
one `None` per entry.  Alongside the observation, the list of backend
interface operations issued is returned, in source order. -/
def essentialObservation_update (env : UpdEnv) (with_forecast : Bool) :
    ObsM × List BackendOp :=
  let currentInj : InjDict := ⟨env.b_load_p, env.b_load_q, env.b_gen_p, env.b_gen_v⟩
  let finj : List (ℤ × InjDict) :=
    if with_forecast then (env.time_stamp, currentInj) :: env.forecasts else []
  let obs : ObsM :=
    { current_step := env.nb_time_step
      max_step := env.max_episode_dur
      time_stamp := env.time_stamp
      timestep_overflow := env.timestep_overflow
      line_status := env.b_line_status
      topo_vect := env.b_topo_vect
      gen_p := env.b_gen_p
      gen_q := env.b_gen_q
      gen_v := env.b_gen_v
      load_p := env.b_load_p
      load_q := env.b_load_q
      load_v := env.b_load_v
      p_or := env.b_p_or
      q_or := env.b_q_or
      v_or := env.b_v_or
      a_or := env.b_a_or
      p_ex := env.b_p_ex
      q_ex := env.b_q_ex
      v_ex := env.b_v_ex
      a_ex := env.b_a_ex
      forecasted_inj := finj
      forecasted_grid := List.replicate finj.length none
      rho := env.b_rho
      time_before_cooldown_line := env.times_before_line_actionable
      time_before_cooldown_sub := env.times_before_topo_actionable
      thermal_limit := env.thermal_limit }
  let ops : List BackendOp :=
    [BackendOp.get_line_status, BackendOp.get_topo_vect, BackendOp.generators_info,
     BackendOp.loads_info, BackendOp.lines_or_info, BackendOp.lines_ex_info,
     BackendOp.get_relative_flow] ++
    (if env.can_output_theta then [BackendOp.get_theta] else [])
  (obs, ops)

/-- C7: with forecasts enabled, the forecast field holds the current
injection row followed by the chronics `forecasts()` rows copied as-is, and
observation assembly issues no backend solve; indeed the backend operations
issued do not depend on the forecast flag at all. -/
theorem forecast_copied_no_solve :
    ∀ env : UpdEnv,
      (essentialObservation_update env true).1.forecasted_inj
        = (env.time_stamp, ⟨env.b_load_p, env.b_load_q, env.b_gen_p, env.b_gen_v⟩)
            :: env.forecasts ∧
      BackendOp.solve ∉ (essentialObservation_update env true).2 ∧
      (essentialObservation_update env true).2 = (essentialObservation_update env false).2 := by
  intro env
  refine ⟨rfl, ?_, rfl⟩
  unfold essentialObservation_update
  cases h : env.can_output_theta <;> simp [h]

/-! ## The step state machine and simulate sandbox.
`BaseEnv.step`, `BaseEnv.reset` and `BaseObservation.simulate` belong to the
repository but are not among the provided sources (only their callers in
`Environment.py` and `test2.py` are); they are modelled from the
specification, sections 4.1, 4.3, 4.4 and 6. -/

/-- Modelled from the spec: the per-step configuration constants of section
4.1 steps 7-8 and section 4.3 — line cooldown value after a reconfiguration
and the token-bucket income/cap of the opponent and attention budgets. -/
structure EngineCfg where
  cooldown_line : ℕ
  opponent_budget_per_ts : ℤ
  opponent_budget_max : ℤ
  attention_budget_per_ts : ℤ
  attention_budget_max : ℤ
deriving DecidableEq

/-- Modelled from the spec: the mutable `EnvironmentState` of section 3 —
topology vector, per-line and per-substation cooldown counters, opponent and
attention budget balances, step counter, terminal flag, the PRNG state, the
chronics cursor and the opponent seed. -/
structure EnvState where
  topo_vect : List ℤ
  line_cooldown : List ℕ
  sub_cooldown : List ℕ
  opponent_budget : ℤ
  attention_budget : ℤ
  nb_time_step : ℕ
  done : Bool
  rng_seed : ℕ
  chron_cursor : ℕ
  opp_seed : ℕ
deriving DecidableEq

/-- The state error raised when `step` is called on a terminated episode. -/
inductive StepError where
  | stateError
deriving DecidableEq

/-- The flags of the `info` dict returned by `step`. -/
structure StepInfo where
  is_illegal : Bool
  is_ambiguous : Bool
  has_error : Bool
deriving DecidableEq

/-- The observation snapshot of the step-machine model, assembled fresh from
the post-step state. -/
structure SObs where
  step_idx : ℕ
  topo_vect : List ℤ
  line_cooldown : List ℕ
  sub_cooldown : List ℕ
  attention_budget : ℤ
deriving DecidableEq

/-- The `(observation, reward, done, info)` tuple `step` returns. -/
structure StepOut where
  obs : SObs
  reward : ℚ
  done : Bool
  info : StepInfo
deriving DecidableEq

/-- Integer minimum written with a kernel-reducible comparison. -/
def imin (a b : ℤ) : ℤ := if a ≤ b then a else b

/-- Deterministic PRNG advance (a linear congruential step). -/
def lcg (seed : ℕ) : ℕ := (seed * 1103515245 + 12345) % 2 ^ 31

/-- Apply a sparse `set` vector: `0` leaves an entry, a nonzero value
overwrites it. -/
def applySet (cur act : List ℤ) : List ℤ :=
  (cur.zip act).map (fun p => if p.2 = 0 then p.1 else p.2)

/-- Observation assembly of the step-machine model: a fresh snapshot of the
post-step state. -/
def mkSObs (s : EnvState) : SObs :=
  ⟨s.nb_time_step, s.topo_vect, s.line_cooldown, s.sub_cooldown, s.attention_budget⟩

/-- Modelled from the spec: `BaseEnv.step` (not under the provided sources)
as the section 4.1 state machine.  A step on a terminated episode fails with
a state error.  Otherwise: the legality filter replaces an action touching a
line under cooldown by the no-op and records `is_illegal`; the opponent
(section 4.3, a deterministic function of its seed and the step counter) may
force one line disconnected; the composed topology is applied; cooldowns
decrement (floor zero) except for freshly reconfigured lines, which take the
configured cooldown; budgets regenerate by their income, capped at their
maximum; the external solver decides divergence (`has_error`), which —
like chronics exhaustion — terminates the episode.  The returned `done`
flag always equals the terminal flag stored in the successor state. -/
def stepEngine (cfg : EngineCfg) (chron : List InjDict)
    (solveOk : List ℤ → InjDict → Bool) (oppAttack : ℕ → ℕ → Option ℕ)
    (s : EnvState) (a : RecAction) : Except StepError (StepOut × EnvState) :=
  if s.done then Except.error StepError.stateError
  else
    let illegal :=
      ((a.set_line_status.zip s.line_cooldown).filter
        (fun p => p.1 != 0 && p.2 != 0)).length != 0
    let effBus := if illegal then List.replicate a.set_bus.length 0 else a.set_bus
    let effLine :=
      if illegal then List.replicate a.set_line_status.length 0 else a.set_line_status
    let effLine2 :=
      match oppAttack s.opp_seed s.nb_time_step with
      | none => effLine
      | some i => effLine.set i (-1)
    let topo := applySet s.topo_vect effBus
    let lineCd := (s.line_cooldown.zip effLine2).map
      (fun p => if p.2 = 0 then p.1 - 1 else cfg.cooldown_line)
    let subCd := s.sub_cooldown.map (fun n => n - 1)
    let oppB := imin cfg.opponent_budget_max (s.opponent_budget + cfg.opponent_budget_per_ts)
    let attB := imin cfg.attention_budget_max (s.attention_budget + cfg.attention_budget_per_ts)
    let hasError :=
      match chron[s.chron_cursor]? with
      | none => false
      | some row => !(solveOk topo row)
    let finished := hasError || (chron[s.chron_cursor]?).isNone
    let s2 : EnvState :=
      { topo_vect := topo, line_cooldown := lineCd, sub_cooldown := subCd,
        opponent_budget := oppB, attention_budget := attB,
        nb_time_step := s.nb_time_step + 1, done := finished,
        rng_seed := lcg s.rng_seed, chron_cursor := s.chron_cursor + 1,
        opp_seed := s.opp_seed }
    Except.ok ({ obs := mkSObs s2, reward := if hasError then 0 else 1,
                 done := finished, info := ⟨illegal, false, hasError⟩ }, s2)

/-- A step on a terminated state always fails with the state error. -/
theorem step_done_error (cfg : EngineCfg) (chron : List InjDict)
    (solveOk : List ℤ → InjDict → Bool) (oppAttack : ℕ → ℕ → Option ℕ)
    (s : EnvState) (a : RecAction) (h : s.done = true) :
    stepEngine cfg chron solveOk oppAttack s a = Except.error StepError.stateError := by
  unfold stepEngine
  simp [h]

/-- The `done` flag a successful step returns equals the terminal flag of
the successor state, and its observation is assembled fresh from that
state. -/
theorem step_ok_done (cfg : EngineCfg) (chron : List InjDict)
    (solveOk : List ℤ → InjDict → Bool) (oppAttack : ℕ → ℕ → Option ℕ)
    (s : EnvState) (a : RecAction) (out : StepOut) (s2 : EnvState)
    (h : stepEngine cfg chron solveOk oppAttack s a = Except.ok (out, s2)) :
    out.done = s2.done ∧ out.obs = mkSObs s2 := by
  unfold stepEngine at h
  split_ifs at h
  simp only [Except.ok.injEq, Prod.mk.injEq] at h
  obtain ⟨hout, hs2⟩ := h
  subst hout
  subst hs2
  exact ⟨rfl, rfl⟩

/-- C2: a step on a terminated episode fails with a state error, and once a
step returns `done = true` every later step on the resulting engine state
(without a reset) fails with a state error: it never silently executes
another step. -/
theorem done_is_terminal :
    (∀ (cfg : EngineCfg) (chron : List InjDict) (solveOk : List ℤ → InjDict → Bool)
        (oppAttack : ℕ → ℕ → Option ℕ) (s : EnvState) (a : RecAction), s.done = true →
      stepEngine cfg chron solveOk oppAttack s a = Except.error StepError.stateError) ∧
    (∀ (cfg : EngineCfg) (chron : List InjDict) (solveOk : List ℤ → InjDict → Bool)
        (oppAttack : ℕ → ℕ → Option ℕ) (s : EnvState) (a : RecAction)
        (out : StepOut) (s2 : EnvState),
      stepEngine cfg chron solveOk oppAttack s a = Except.ok (out, s2) → out.done = true →
      ∀ a2 : RecAction,
        stepEngine cfg chron solveOk oppAttack s2 a2 = Except.error StepError.stateError) := by
  constructor
  · intro cfg chron so oa s a h
    exact step_done_error cfg chron so oa s a h
  · intro cfg chron so oa s a out s2 hok hdone a2
    have hd := (step_ok_done cfg chron so oa s a out s2 hok).1
    exact step_done_error cfg chron so oa s2 a2 (by rw [← hd]; exact hdone)

/-- Concrete instances for the step-machine witnesses. -/
def cfgW : EngineCfg := ⟨1, 0, 0, 0, 0⟩

def act0 : RecAction := ⟨[], []⟩

def sDoneW : EnvState := ⟨[], [], [], 0, 0, 3, true, 0, 3, 0⟩

def sRunW : EnvState := ⟨[], [], [], 0, 0, 0, false, 0, 0, 0⟩

def s2W : EnvState := ⟨[], [], [], 0, 0, 1, true, 12345, 1, 0⟩

def outW : StepOut := ⟨⟨1, [], [], [], 0⟩, 1, true, ⟨false, false, false⟩⟩

/-- Witness for C2: on a concrete terminated state the step errors, and
after a concrete step that returns `done = true` the next step errors. -/
theorem done_is_terminal_witness :
    stepEngine cfgW [] (fun _ _ => true) (fun _ _ => none) sDoneW act0
      = Except.error StepError.stateError ∧
    stepEngine cfgW [] (fun _ _ => true) (fun _ _ => none) s2W act0
      = Except.error StepError.stateError :=
  ⟨done_is_terminal.1 cfgW [] (fun _ _ => true) (fun _ _ => none) sDoneW act0 rfl,
   done_is_terminal.2 cfgW [] (fun _ _ => true) (fun _ _ => none) sRunW act0 outW s2W
     (by decide) rfl act0⟩

/-- Run the step machine over a list of actions, collecting the step
outputs; a state error stops the run. -/
def runSeq (cfg : EngineCfg) (chron : List InjDict)
    (solveOk : List ℤ → InjDict → Bool) (oppAttack : ℕ → ℕ → Option ℕ) :
    EnvState → List RecAction → List StepOut
  | _, [] => []
  | s, a :: as =>
      match stepEngine cfg chron solveOk oppAttack s a with
      | Except.error _ => []
      | Except.ok (out, s2) => out :: runSeq cfg chron solveOk oppAttack s2 as

/-- C3: two runs of the step sequence from environment states agreeing on
every component — topology, cooldowns, budgets, step counter, terminal
flag, random seed, chronics cursor and opponent seed — produce identical
outputs (observation, reward, done, info) at every step. -/
theorem step_sequence_deterministic :
    ∀ (cfg : EngineCfg) (chron : List InjDict) (solveOk : List ℤ → InjDict → Bool)
      (oppAttack : ℕ → ℕ → Option ℕ) (s1 s2 : EnvState) (acts : List RecAction),
      s1.topo_vect = s2.topo_vect → s1.line_cooldown = s2.line_cooldown →
      s1.sub_cooldown = s2.sub_cooldown → s1.opponent_budget = s2.opponent_budget →
      s1.attention_budget = s2.attention_budget → s1.nb_time_step = s2.nb_time_step →
      s1.done = s2.done → s1.rng_seed = s2.rng_seed → s1.chron_cursor = s2.chron_cursor →
      s1.opp_seed = s2.opp_seed →
      runSeq cfg chron solveOk oppAttack s1 acts = runSeq cfg chron solveOk oppAttack s2 acts := by
  intro cfg chron so oa s1 s2 acts h1 h2 h3 h4 h5 h6 h7 h8 h9 h10
  have hs : s1 = s2 := by
    cases s1
    cases s2
    simp_all
  rw [hs]

/-- Witness for C3: the two runs coincide on a concrete state and action
sequence. -/
theorem step_sequence_deterministic_witness :
    runSeq cfgW [] (fun _ _ => true) (fun _ _ => none) sRunW [act0, act0]
      = runSeq cfgW [] (fun _ _ => true) (fun _ _ => none) sRunW [act0, act0] :=
  step_sequence_deterministic cfgW [] (fun _ _ => true) (fun _ _ => none) sRunW sRunW
    [act0, act0] rfl rfl rfl rfl rfl rfl rfl rfl rfl rfl

/-- Modelled from the spec: `BaseObservation.simulate` (not under the
provided sources; `Environment.simulate`, src lines 514-534, delegates to
it).  It duplicates the mutable state into a disposable sandbox, runs one
step of the engine there, discards the sandbox, and returns the step-shaped
result together with the untouched real state. -/
def simulateEngine (cfg : EngineCfg) (chron : List InjDict)
    (solveOk : List ℤ → InjDict → Bool) (oppAttack : ℕ → ℕ → Option ℕ)
    (s : EnvState) (a : RecAction) : Except StepError StepOut × EnvState :=
  let sandbox := s
  (Except.map Prod.fst (stepEngine cfg chron solveOk oppAttack sandbox a), s)

/-- The real state after `n` successive `simulate` calls. -/
def simulateIter (cfg : EngineCfg) (chron : List InjDict)
    (solveOk : List ℤ → InjDict → Bool) (oppAttack : ℕ → ℕ → Option ℕ)
    (a : RecAction) : ℕ → EnvState → EnvState
  | 0, s => s
  | n + 1, s =>
      simulateIter cfg chron solveOk oppAttack a n
        (simulateEngine cfg chron solveOk oppAttack s a).2

/-- C1: `simulate` returns the step-shaped result of running the action on a
sandbox copy of the state, and any number of `simulate` calls leaves the
real `EnvironmentState` — topology, cooldowns, budgets, step counter —
exactly as it was. -/
theorem simulate_no_mutation :
    ∀ (cfg : EngineCfg) (chron : List InjDict) (solveOk : List ℤ → InjDict → Bool)
      (oppAttack : ℕ → ℕ → Option ℕ) (s : EnvState) (a : RecAction),
      (simulateEngine cfg chron solveOk oppAttack s a).1
        = Except.map Prod.fst (stepEngine cfg chron solveOk oppAttack s a) ∧
      ∀ n : ℕ, simulateIter cfg chron solveOk oppAttack a n s = s := by
  intro cfg chron so oa s a
  refine ⟨rfl, ?_⟩
  intro n
  induction n with
  | zero => rfl
  | succ k ih =>
      rw [simulateIter]
      exact ih

/-- The final state of a run, `none` when a state error occurred. -/
def runFinal (cfg : EngineCfg) (chron : List InjDict)
    (solveOk : List ℤ → InjDict → Bool) (oppAttack : ℕ → ℕ → Option ℕ) :
    EnvState → List RecAction → Option EnvState
  | s, [] => some s
  | s, a :: as =>
      match stepEngine cfg chron solveOk oppAttack s a with
      | Except.error _ => none
      | Except.ok (_, s2) => runFinal cfg chron solveOk oppAttack s2 as

/-- The observations produced along a run. -/
def obsTrace (cfg : EngineCfg) (chron : List InjDict)
    (solveOk : List ℤ → InjDict → Bool) (oppAttack : ℕ → ℕ → Option ℕ)
    (s : EnvState) (acts : List RecAction) : List SObs :=
  (runSeq cfg chron solveOk oppAttack s acts).map StepOut.obs

theorem runSeq_append (cfg : EngineCfg) (chron : List InjDict)
    (solveOk : List ℤ → InjDict → Bool) (oppAttack : ℕ → ℕ → Option ℕ)
    (s : EnvState) (as bs : List RecAction) :
    runSeq cfg chron solveOk oppAttack s (as ++ bs)
      = runSeq cfg chron solveOk oppAttack s as ++
        (match runFinal cfg chron solveOk oppAttack s as with
         | some s2 => runSeq cfg chron solveOk oppAttack s2 bs
         | none => []) := by
  induction as generalizing s with
  | nil => simp [runSeq, runFinal]
  | cons a as ih =>
      rw [List.cons_append]
      simp only [runSeq, runFinal]
      cases h : stepEngine cfg chron solveOk oppAttack s a with
      | error e => simp
      | ok p =>
          rcases p with ⟨out, s2⟩
          simp [ih s2]

/-- C8: the observations already returned are never changed by later steps —
the trace of a longer run extends the trace of a shorter one without
touching its entries — and every successful step builds its observation
fresh from the post-step state. -/
theorem observation_never_mutated :
    ∀ (cfg : EngineCfg) (chron : List InjDict) (solveOk : List ℤ → InjDict → Bool)
      (oppAttack : ℕ → ℕ → Option ℕ) (s : EnvState) (as bs : List RecAction),
      (obsTrace cfg chron solveOk oppAttack s (as ++ bs)).take
          (obsTrace cfg chron solveOk oppAttack s as).length
        = obsTrace cfg chron solveOk oppAttack s as ∧
      ∀ (a : RecAction) (out : StepOut) (s2 : EnvState),
        stepEngine cfg chron solveOk oppAttack s a = Except.ok (out, s2) →
        out.obs = mkSObs s2 := by
  intro cfg chron so oa s as bs
  constructor
  · unfold obsTrace
    rw [runSeq_append, List.map_append, List.length_map, ← List.length_map _ StepOut.obs]
    exact List.take_left _ _
  · intro a out s2 h
    exact (step_ok_done cfg chron so oa s a out s2 h).2

/-- Witness for C8 at a concrete run and step. -/
theorem observation_never_mutated_witness :
    (obsTrace cfgW [] (fun _ _ => true) (fun _ _ => none) sRunW ([act0] ++ [act0])).take
        (obsTrace cfgW [] (fun _ _ => true) (fun _ _ => none) sRunW [act0]).length
      = obsTrace cfgW [] (fun _ _ => true) (fun _ _ => none) sRunW [act0] ∧
    outW.obs = mkSObs s2W :=
  ⟨(observation_never_mutated cfgW [] (fun _ _ => true) (fun _ _ => none) sRunW
      [act0] [act0]).1,
   (observation_never_mutated cfgW [] (fun _ _ => true) (fun _ _ => none) sRunW
      [act0] [act0]).2 act0 outW s2W (by decide)⟩

/-! ## Rebuilding an environment from `get_kwargs`
(`Environment.get_kwargs`, lines 859-928) -/

/-- The slice of an `Environment` that `get_kwargs` reads for its backend
entry. -/
structure EnvM where
  backend : BackendM
deriving DecidableEq

/-- The backend entry of the dictionary `get_kwargs` returns. -/
structure KwargsM where
  backend : Option BackendM
deriving DecidableEq

/-- `Environment.get_kwargs` (lines 894-928), backend entry: with
`with_backend` the dict holds `self.backend.copy()` whose `_is_loaded` flag
is then cleared (lines 897-899).  The grid2op `Backend.is_loaded` property
read by `_init_backend` is backed by this flag; that property lives outside
the provided sources. -/
def get_kwargs (env : EnvM) (with_backend : Bool) : KwargsM :=
  { backend :=
      if with_backend then some { env.backend.copy with is_loaded := false } else none }

/-- C10: the backend entry of `get_kwargs(with_backend=True)` is a copy of
the environment's backend with the loaded flag cleared, so constructing a
new `Environment` from it never triggers the eager same-backend-used-twice
error. -/
theorem get_kwargs_backend_reusable :
    ∀ (env : EnvM) (b : BackendM), (get_kwargs env true).backend = some b →
      b.is_loaded = false ∧ b.thermal_limit = env.backend.thermal_limit ∧
      ∀ a : InitArgs, a.backend = b →
        ∀ n, initBackend a ≠ Except.error (InitError.backendAlreadyLoaded, n) := by
  intro env b hb
  simp only [get_kwargs, if_pos, Option.some.injEq] at hb
  refine ⟨?_, ?_, ?_⟩
  · rw [← hb]
  · rw [← hb]
    rfl
  · intro a ha n
    apply not_loaded_no_loaded_error
    rw [ha, ← hb]

/-- A concrete environment whose own (loaded) backend is copied. -/
def envW : EnvM := ⟨⟨true, [3]⟩⟩

/-- Witness for C10: from a concrete environment, the rebuilt arguments do
not raise the same-backend-used-twice error. -/
theorem get_kwargs_backend_reusable_witness :
    (⟨false, [3]⟩ : BackendM).is_loaded = false ∧
    (⟨false, [3]⟩ : BackendM).thermal_limit = envW.backend.thermal_limit ∧
    initBackend { argsFresh with backend := ⟨false, [3]⟩ }
      ≠ Except.error (InitError.backendAlreadyLoaded, 0) :=
  ⟨(get_kwargs_backend_reusable envW ⟨false, [3]⟩ rfl).1,
   (get_kwargs_backend_reusable envW ⟨false, [3]⟩ rfl).2.1,
   (get_kwargs_backend_reusable envW ⟨false, [3]⟩ rfl).2.2
     { argsFresh with backend := ⟨false, [3]⟩ } rfl 0⟩

end Grid2OpRes
